import Mathlib

/-!
Verification of the anyrouter-check-in orchestration core.

The Python sources (src/checkin.py, src/utils/notify.py) are shallowly
embedded below: pure computations become Lean functions, the stateful
run of `main` becomes an explicit state-passing function over the inputs
it consumes (per-account results, the persisted fingerprint file content,
notification-channel configuration and per-channel delivery results).
Machine-level hashing (hashlib.sha256) is embedded as a full SHA-256
implementation over `Nat` bytes. The two-decimal floats produced by
`round(x / 500000, 2)` are represented exactly as integer hundredths
with round-half-to-even division, which agrees with the float
computation on the inputs this program produces.
-/

/-! ## Generic helpers: association lists, substring search, truncation -/

/-- First-match lookup in an association list; models reading a Python
dict represented with distinct keys in insertion order. -/
def alookup {β : Type} (m : List (String × β)) (k : String) : Option β :=
  match m with
  | [] => none
  | (k2, v) :: rest => if k2 = k then some v else alookup rest k

/-- Python dict assignment `d[k] = v`: overwrite in place if the key is
present, otherwise append, preserving insertion order. -/
def dictInsert {β : Type} (m : List (String × β)) (k : String) (v : β) :
    List (String × β) :=
  if (alookup m k).isSome then
    m.map (fun p => if p.1 = k then (k, v) else p)
  else m ++ [(k, v)]

/-- Contiguous-sublist test, models the Python `sub in l` operator on
sequences. -/
def hasSublist {α : Type} [BEq α] (sub : List α) : List α → Bool
  | [] => sub.isEmpty
  | a :: t => sub.isPrefixOf (a :: t) || hasSublist sub t

/-- Python `sub in s` on strings. -/
def strContains (s sub : String) : Bool :=
  hasSublist sub.data s.data

/-- Python slicing `s[:n]` (by characters). -/
def strTake (s : String) (n : Nat) : String :=
  String.mk (s.data.take n)

/-- Whitespace stripped by Python str.strip. -/
def isPySpace (c : Char) : Bool :=
  c = ' ' || c = '\t' || c = '\n' || c = '\r' || c = '\x0b' || c = '\x0c'

/-- Python str.strip. -/
def strStrip (s : String) : String :=
  String.mk (((s.data.dropWhile isPySpace).reverse.dropWhile isPySpace).reverse)

/-- Python str.lower (over the ASCII range this program compares). -/
def strLower (s : String) : String :=
  String.mk (s.data.map Char.toLower)

/-- Splitting a character list at every occurrence of `c`. -/
def splitListOn (c : Char) : List Char → List (List Char)
  | [] => [[]]
  | a :: t =>
    if a = c then [] :: splitListOn c t
    else
      match splitListOn c t with
      | h :: r => (a :: h) :: r
      | [] => [[a]]

/-- Python s.split(c) for a one-character separator. -/
def strSplitOn (c : Char) (s : String) : List String :=
  (splitListOn c s.data).map String.mk

/-! ## SHA-256 over `Nat` bytes (models hashlib.sha256) -/

/-- Reduce to a 32-bit word. -/
def w32 (x : Nat) : Nat := x % 4294967296

/-- Rotate a 32-bit word right by `n`. -/
def rotr (n x : Nat) : Nat := w32 ((x >>> n) ||| (x <<< (32 - n)))

def sumA (x : Nat) : Nat := rotr 2 x ^^^ rotr 13 x ^^^ rotr 22 x
def sumE (x : Nat) : Nat := rotr 6 x ^^^ rotr 11 x ^^^ rotr 25 x
def sigLo (x : Nat) : Nat := rotr 7 x ^^^ rotr 18 x ^^^ (x >>> 3)
def sigHi (x : Nat) : Nat := rotr 17 x ^^^ rotr 19 x ^^^ (x >>> 10)
def chf (x y z : Nat) : Nat := (x &&& y) ^^^ ((x ^^^ 4294967295) &&& z)
def majf (x y z : Nat) : Nat := (x &&& y) ^^^ (x &&& z) ^^^ (y &&& z)

/-- SHA-256 round constants (FIPS 180-4), written in decimal. -/
def shaK : List Nat :=
  [1116352408, 1899447441, 3049323471, 3921009573, 961987163, 1508970993,
   2453635748, 2870763221, 3624381080, 310598401, 607225278, 1426881987,
   1925078388, 2162078206, 2614888103, 3248222580, 3835390401, 4022224774,
   264347078, 604807628, 770255983, 1249150122, 1555081692, 1996064986,
   2554220882, 2821834349, 2952996808, 3210313671, 3336571891, 3584528711,
   113926993, 338241895, 666307205, 773529912, 1294757372, 1396182291,
   1695183700, 1986661051, 2177026350, 2456956037, 2730485921, 2820302411,
   3259730800, 3345764771, 3516065817, 3600352804, 4094571909, 275423344,
   430227734, 506948616, 659060556, 883997877, 958139571, 1322822218,
   1537002063, 1747873779, 1955562222, 2024104815, 2227730452, 2361852424,
   2428436474, 2756734187, 3204031479, 3329325298]

/-- SHA-256 initial hash value (FIPS 180-4), written in decimal. -/
def shaH0 : List Nat :=
  [1779033703, 3144134277, 1013904242, 2773480762,
   1359893119, 2600822924, 528734635, 1541459225]

/-- Pad a byte message per FIPS 180-4: append 0x80, zeros, then the
bit length as 8 big-endian bytes, to a multiple of 64 bytes. -/
def shaPad (msg : List Nat) : List Nat :=
  let len := msg.length
  let zeros := (119 - len % 64) % 64
  let bitLen := 8 * len
  msg ++ [0x80] ++ List.replicate zeros 0 ++
    (List.range 8).map (fun i => (bitLen >>> (8 * (7 - i))) &&& 255)

/-- Pack big-endian bytes into 32-bit words. -/
def toWords : List Nat → List Nat
  | b0 :: b1 :: b2 :: b3 :: rest =>
      ((b0 <<< 24) ||| (b1 <<< 16) ||| (b2 <<< 8) ||| b3) :: toWords rest
  | _ => []

/-- Split a word list into 16-word blocks (structurally, so that the
kernel can evaluate it; padded input always chunks evenly). -/
def toBlocks : List Nat → List (List Nat)
  | w1 :: w2 :: w3 :: w4 :: w5 :: w6 :: w7 :: w8 ::
    w9 :: w10 :: w11 :: w12 :: w13 :: w14 :: w15 :: w16 :: rest =>
      [w1, w2, w3, w4, w5, w6, w7, w8, w9, w10, w11, w12, w13, w14, w15, w16] ::
        toBlocks rest
  | [] => []
  | other => [other]

/-- Extend the 16-word schedule by `n` further words. -/
def extendW : Nat → List Nat → List Nat
  | 0, w => w
  | n + 1, w =>
      let L := w.length
      extendW n (w ++ [w32 (sigHi (w.getD (L - 2) 0) + w.getD (L - 7) 0 +
        sigLo (w.getD (L - 15) 0) + w.getD (L - 16) 0)])

/-- One compression round on the eight-word working state. -/
def roundStep (st : List Nat) (wk : Nat × Nat) : List Nat :=
  match st with
  | [a, b, c, d, e, f, g, h] =>
      let t1 := w32 (h + sumE e + chf e f g + wk.2 + wk.1)
      let t2 := w32 (sumA a + majf a b c)
      [w32 (t1 + t2), a, b, c, w32 (d + t1), e, f, g]
  | other => other

/-- Compress one 16-word block into the running hash. -/
def shaCompress (hs : List Nat) (block : List Nat) : List Nat :=
  let w := extendW 48 block
  let st := (w.zip shaK).foldl roundStep hs
  (hs.zip st).map (fun p => w32 (p.1 + p.2))

/-- SHA-256 digest of a byte message, as eight 32-bit words. -/
def sha256words (msg : List Nat) : List Nat :=
  (toBlocks (toWords (shaPad msg))).foldl shaCompress shaH0

def hexChar (n : Nat) : Char :=
  if n < 10 then Char.ofNat (48 + n) else Char.ofNat (87 + n)

def wordHex (w : Nat) : List Char :=
  (List.range 8).map (fun i => hexChar ((w >>> (4 * (7 - i))) &&& 15))

/-- UTF-8 encoding of one character. -/
def utf8Bytes (c : Char) : List Nat :=
  let n := c.toNat
  if n < 0x80 then [n]
  else if n < 0x800 then
    [0xC0 ||| (n >>> 6), 0x80 ||| (n &&& 0x3F)]
  else if n < 0x10000 then
    [0xE0 ||| (n >>> 12), 0x80 ||| ((n >>> 6) &&& 0x3F), 0x80 ||| (n &&& 0x3F)]
  else
    [0xF0 ||| (n >>> 18), 0x80 ||| ((n >>> 12) &&& 0x3F),
     0x80 ||| ((n >>> 6) &&& 0x3F), 0x80 ||| (n &&& 0x3F)]

/-- Models Python str.encode of a string to UTF-8 bytes. -/
def strBytes (s : String) : List Nat :=
  (s.data.map utf8Bytes).flatten

/-- Models hashlib.sha256(s.encode).hexdigest: the 64-character
lowercase hexadecimal SHA-256 digest of the UTF-8 encoding of `s`. -/
def sha256hex (s : String) : String :=
  String.mk ((sha256words (strBytes s)).map wordHex).flatten

/-! ## JSON values (results of Python json.loads) -/

/-- A decoded JSON value. Numbers are modelled as integers: every
numeric field exercised by this program (quota, used_quota, ret, code)
is integral in the provider contract. -/
inductive JVal where
  | null
  | jbool (b : Bool)
  | jnum (n : Int)
  | jstr (s : String)
  | jarr (elems : List JVal)
  | jobj (fields : List (String × JVal))

/-- Python truthiness of a decoded JSON value. -/
def truthy : JVal → Bool
  | .null => false
  | .jbool b => b
  | .jnum n => n != 0
  | .jstr s => s ≠ ""
  | .jarr l => !l.isEmpty
  | .jobj f => !f.isEmpty

/-- Python `v == n` for an optional field value against an int literal
(True == 1 and False == 0 hold in Python; a missing field is None). -/
def pyEqInt (v : Option JVal) (n : Int) : Bool :=
  match v with
  | some (.jnum m) => m = n
  | some (.jbool b) => (if b then (1 : Int) else 0) = n
  | _ => false

/-- Python truthiness of `d.get(k)` (None when absent). -/
def truthyOpt (v : Option JVal) : Bool :=
  match v with
  | some j => truthy j
  | none => false

/-- Python `d.get(k)` on a decoded JSON object. -/
def jGet (fields : List (String × JVal)) (k : String) : Option JVal :=
  alookup fields k

/-- Python `d.get(k, default)` on a decoded JSON object: the default is
used only when the key is absent. -/
def jGetD (fields : List (String × JVal)) (k : String) (d : JVal) : JVal :=
  (alookup fields k).getD d

/-- Python str() of a decoded JSON scalar as used in log f-strings.
Containers are abbreviated: the program never formats one on the paths
the claims exercise. -/
def pyStrOf : JVal → String
  | .jstr s => s
  | .null => "None"
  | .jbool true => "True"
  | .jbool false => "False"
  | .jnum n => toString n
  | .jarr _ => "[...]"
  | .jobj _ => "\x7b...\x7d"

/-! ## Python numeric helpers: round(x / d, 2) and float rendering.
Two-decimal values are represented exactly as integer hundredths
(cents): the float 2.0 is the integer 200. -/

/-- Round n / d to the nearest integer, ties to even, for d > 0:
the behaviour of Python round on an exact quotient. -/
def roundHalfEvenDiv (n d : Int) : Int :=
  let f := Int.fdiv n d
  let r := n - f * d
  if 2 * r < d then f
  else if d < 2 * r then f + 1
  else if f % 2 = 0 then f else f + 1

/-- Python round(x / d, 2) in exact arithmetic, returning hundredths:
round(1000000 / 500000, 2) = 2.0 is pyRoundDiv2 1000000 500000 = 200. -/
def pyRoundDiv2 (x d : Int) : Int :=
  roundHalfEvenDiv (x * 100) d

/-- Rendering of a two-decimal float (given in hundredths) by
repr/json.dumps: 200 prints as "2.0", 125 as "1.25", 5 as "0.05". -/
def renderQ2 (c : Int) : String :=
  let sign := if c < 0 then "-" else ""
  let a := c.natAbs
  let ip := a / 100
  let fr := a % 100
  if fr = 0 then sign ++ toString ip ++ ".0"
  else if fr % 10 = 0 then sign ++ toString ip ++ "." ++ toString (fr / 10)
  else sign ++ toString ip ++ "." ++ (if fr < 10 then "0" else "") ++ toString fr

/-! ## Balance fingerprint (generate_balance_hash in src/checkin.py) -/

/-- One account balance as stored in current_balances by main: a dict
with the rounded quota and used values, both in hundredths. -/
structure UserInfoOk where
  quota : Int
  used_quota : Int
deriving DecidableEq, Repr

/-- json.dumps escaping of one character with ensure_ascii (the
default): ASCII printables pass through, the quote and backslash are
escaped, everything else becomes a \uXXXX escape. -/
def jsonEscapeChar (c : Char) : String :=
  let n := c.toNat
  if c = '"' then "\\\""
  else if c = '\\' then "\\\\"
  else if 32 ≤ n ∧ n ≤ 126 then String.mk [c]
  else if n < 0x10000 then
    "\\u" ++ String.mk ((List.range 4).map (fun i => hexChar ((n >>> (4 * (3 - i))) &&& 15)))
  else
    let m := n - 0x10000
    let hi := 0xD800 + (m >>> 10)
    let lo := 0xDC00 + (m &&& 0x3FF)
    "\\u" ++ String.mk ((List.range 4).map (fun i => hexChar ((hi >>> (4 * (3 - i))) &&& 15))) ++
    "\\u" ++ String.mk ((List.range 4).map (fun i => hexChar ((lo >>> (4 * (3 - i))) &&& 15)))

/-- json.dumps rendering of a string. -/
def jsonQuote (s : String) : String :=
  "\"" ++ String.join (s.data.map jsonEscapeChar) ++ "\""

/-- Canonical sorted key order used by json.dumps with sort_keys=True. -/
def sortStrings (l : List String) : List String :=
  l.insertionSort (· ≤ ·)

/-- Lookup of a quota value with the irrelevant default 0 (never used
for keys of the mapping). -/
def qLookupD (m : List (String × Int)) (k : String) : Int :=
  (alookup m k).getD 0

/-- json.dumps(m, sort_keys=True, separators=(",", ":")) for a dict
from string keys to two-decimal floats (in hundredths); the dict is
modelled as an association list with distinct keys. -/
def jsonDumpsSortedQ (m : List (String × Int)) : String :=
  let keys := sortStrings (m.map Prod.fst)
  "\x7b" ++ String.intercalate ","
    (keys.map (fun k => jsonQuote k ++ ":" ++ renderQ2 (qLookupD m k))) ++ "\x7d"

/-- The dict comprehension in generate_balance_hash: keep only the
quota of each entry, discarding the used value. -/
def quotaOnly (balances : List (String × UserInfoOk)) : List (String × Int) :=
  balances.map (fun p => (p.1, p.2.quota))

/-- The key-to-quota function defined by a balance mapping. -/
def quotaLookup (balances : List (String × UserInfoOk)) (k : String) : Option Int :=
  alookup (quotaOnly balances) k

/-- generate_balance_hash from src/checkin.py: reduce the balances to
quota-only, serialize with sorted keys and compact separators, hash
with SHA-256 and keep the first 16 hex characters. -/
def generate_balance_hash (balances : List (String × UserInfoOk)) : String :=
  let simple_balances := if balances.isEmpty then [] else quotaOnly balances
  let balance_json := jsonDumpsSortedQ simple_balances
  strTake (sha256hex balance_json) 16

/-! ## HTTP responses and the account check-in worker -/

/-- An HTTP response as the worker observes it: the status code, the
raw text body, and the result of response.json() — `none` models a
json.JSONDecodeError. -/
structure HttpResp where
  status : Nat
  text : String
  json : Option JVal
deriving Inhabited

/-- Result of get_user_info: the dict with success True carrying the
two rounded balances, or the dict with success False and an error
line. -/
inductive UserInfoRes where
  | ok (u : UserInfoOk)
  | err (e : String)
deriving DecidableEq, Repr

/-- The display line get_user_info precomputes for a successful fetch. -/
def userInfoDisplay (u : UserInfoOk) : String :=
  ":money: Current balance: $" ++ renderQ2 u.quota ++ ", Used: $" ++ renderQ2 u.used_quota

/-- get_user_info from src/checkin.py. On HTTP 200 with a JSON object
whose success field is truthy, divide quota and used_quota by 500000
and round to two decimals; any other 200 outcome falls through to the
HTTP-status error line; exceptions raised while decoding or probing the
body are caught by the surrounding except and reported as a truncated
error string. -/
def get_user_info (resp : HttpResp) : UserInfoRes :=
  if resp.status = 200 then
    match resp.json with
    | some (.jobj fields) =>
      if truthyOpt (jGet fields "success") then
        match jGetD fields "data" (.jobj []) with
        | .jobj dataFields =>
          match jGetD dataFields "quota" (.jnum 0), jGetD dataFields "used_quota" (.jnum 0) with
          | .jnum q, .jnum u =>
              .ok ⟨pyRoundDiv2 q 500000, pyRoundDiv2 u 500000⟩
          | _, _ => .err "Failed to get user info: unsupported operand type(s) for /..."
        | _ => .err "Failed to get user info: 'data' value has no attribute 'get'..."
      else .err ("Failed to get user info: HTTP " ++ toString resp.status)
    | some _ => .err "Failed to get user info: response body is not an object..."
    | none => .err "Failed to get user info: Expecting value: line 1 column 1 (..."
  else .err ("Failed to get user info: HTTP " ++ toString resp.status)

/-- Outcome of execute_check_in: the function returns True or False
and logs a failure detail; `raised` models an exception escaping it
(AttributeError when json.loads produced a non-object), to be caught
at the check_in_account boundary. -/
inductive CheckinResult where
  | success
  | failed (detail : JVal)
  | raised (msg : String)

/-- execute_check_in from src/checkin.py: on a 200 JSON object body,
success iff ret == 1 or code == 0 or a truthy success field, otherwise
failure with the msg field (falling back to message, then the literal
Unknown error); on a 200 body that fails to decode, success iff the
lowercased text contains "success", else an invalid-format failure; on
any other status, failure with the HTTP status. -/
def execute_check_in (resp : HttpResp) : CheckinResult :=
  if resp.status = 200 then
    match resp.json with
    | some (.jobj result) =>
      if pyEqInt (jGet result "ret") 1 || pyEqInt (jGet result "code") 0 ||
          truthyOpt (jGet result "success") then
        .success
      else
        .failed (jGetD result "msg" (jGetD result "message" (.jstr "Unknown error")))
    | some _ => .raised "'list' object has no attribute 'get'"
    | none =>
      if strContains (strLower resp.text) "success" then .success
      else .failed (.jstr "Invalid response format")
  else .failed (.jstr ("HTTP " ++ toString resp.status))

/-! ## Cookie normalization and WAF cookie acquisition -/

/-- The cookies field of an account configuration: a map, a
semicolon-delimited string, or anything else. -/
inductive CookiesData where
  | asMap (m : List (String × String))
  | asStr (s : String)
  | other

/-- parse_cookies from src/checkin.py. -/
def parse_cookies : CookiesData → List (String × String)
  | .asMap m => m
  | .asStr s =>
      (strSplitOn ';' s).foldl (fun acc cookie =>
        if strContains cookie "=" then
          match strSplitOn '=' (strStrip cookie) with
          | k :: rest => dictInsert acc k (String.intercalate "=" rest)
          | [] => acc
        else acc) []
  | .other => []

/-- The three cookie names the WAF bypass must produce. -/
def requiredCookies : List String := ["acw_tc", "cdn_sec_tc", "acw_sc__v2"]

/-- The collection loop of get_waf_cookies_with_playwright: fill the
waf_cookies dict left to right from the browser cookies whose name is
required and whose value is present. -/
def collectWafFrom (acc : List (String × String)) :
    List (String × Option String) → List (String × String)
  | [] => acc
  | c :: rest =>
    match c.2 with
    | some v =>
        collectWafFrom (if requiredCookies.contains c.1 then dictInsert acc c.1 v else acc) rest
    | none => collectWafFrom acc rest

/-- The collected WAF cookie dict, starting empty. -/
def collectWaf (bc : List (String × Option String)) : List (String × String) :=
  collectWafFrom [] bc

/-- get_waf_cookies_with_playwright, reduced to its cookie logic: the
browser interaction is the input list; if any required cookie is
missing from the collected set the whole acquisition returns None. -/
def get_waf_cookies (bc : List (String × Option String)) :
    Option (List (String × String)) :=
  let waf_cookies := collectWaf bc
  let missing := requiredCookies.filter (fun c => !(alookup waf_cookies c).isSome)
  if missing.isEmpty then some waf_cookies else none

/-- Python dict merge with the second dict taking precedence. -/
def mergeDicts (a b : List (String × String)) : List (String × String) :=
  a.map (fun p => (p.1, (alookup b p.1).getD p.2)) ++
    b.filter (fun p => !(alookup a p.1).isSome)

/-- prepare_cookies from src/checkin.py: when the provider needs WAF
cookies, a None or empty acquisition result aborts with None; a
`none` browser input models the Playwright call itself failing. -/
def prepare_cookies (needsWaf : Bool) (browser : Option (List (String × Option String)))
    (user_cookies : List (String × String)) : Option (List (String × String)) :=
  if needsWaf then
    match browser with
    | none => none
    | some bc =>
      match get_waf_cookies bc with
      | none => none
      | some waf => if waf.isEmpty then none else some (mergeDicts waf user_cookies)
  else some (mergeDicts [] user_cookies)

/-! ## check_in_account and check_in_baozi_account -/

/-- The environment one run of check_in_account observes: the provider
profile flags and the responses the network returns. -/
structure AccountEnv where
  providerKnown : Bool
  needsWaf : Bool
  manualCheckIn : Bool
  browser : Option (List (String × Option String))
  userInfoResp : HttpResp
  checkinResp : HttpResp

/-- check_in_account from src/checkin.py: unknown provider, empty
normalized cookies or failed cookie preparation give (False, None);
otherwise the balance is fetched and, for manual-check-in providers,
execute_check_in decides success (an exception escaping it is caught
at this boundary and yields (False, None)); implicit providers succeed
on the user-info request alone. -/
def check_in_account (env : AccountEnv) (cookies : CookiesData) :
    Bool × Option UserInfoRes :=
  if !env.providerKnown then (false, none)
  else
    let user_cookies := parse_cookies cookies
    if user_cookies.isEmpty then (false, none)
    else
      match prepare_cookies env.needsWaf env.browser user_cookies with
      | none => (false, none)
      | some _ =>
        let user_info := get_user_info env.userInfoResp
        if env.manualCheckIn then
          match execute_check_in env.checkinResp with
          | .success => (true, some user_info)
          | .failed _ => (false, some user_info)
          | .raised _ => (false, none)
        else (true, some user_info)

/-- The truncated TypeError text produced when check_in_baozi_account
reaches its dead balance-comparison branch and calls get_user_info
with two arguments instead of three. -/
def baoziTypeErrorMsg : String :=
  "get_user_info() missing 1 required positional argu"

/-- check_in_baozi_account from src/checkin.py. On a 200 JSON object
body: a truthy success field returns the success text; otherwise, if
the raw body text contains "success" (case-insensitive), the code
enters a leftover balance-comparison branch that calls get_user_info
with the wrong arity, raising a TypeError that the outer except turns
into (False, "Error: ..."); otherwise (False, message field). -/
def check_in_baozi_account (cookies : CookiesData) (resp : HttpResp) :
    Bool × String :=
  let user_cookies := parse_cookies cookies
  if user_cookies.isEmpty then (false, "Invalid configuration format")
  else if resp.status = 200 then
    match resp.json with
    | some (.jobj result) =>
      let succ := jGetD result "success" (.jbool false)
      let message := pyStrOf (jGetD result "message" (.jstr "未知响应"))
      if truthy succ then
        (true, message ++ "\n💰 Quota: " ++ pyStrOf (jGetD result "quota" (.jnum 0)) ++
          "\n💵 Current balance: " ++ pyStrOf (jGetD result "current_balance" (.jnum 0)) ++
          "\n🎟️ Redemption code: " ++ pyStrOf (jGetD result "redemption_code" (.jstr "")))
      else if strContains (strLower resp.text) "success" then
        (false, "Error: " ++ baoziTypeErrorMsg)
      else (false, message)
    | some _ => (false, "Error: 'list' object has no attribute 'get'")
    | none => (false, "Invalid response format")
  else (false, "HTTP " ++ toString resp.status)

/-! ## Notification dispatcher (src/utils/notify.py) -/

/-- The seven notification channels in the fixed dispatch order. -/
inductive Channel where
  | email
  | pushplus
  | serverPush
  | dingtalk
  | feishu
  | wecom
  | webhook
deriving DecidableEq, Repr

/-- The dispatch order of push_message. -/
def channelOrder : List Channel :=
  [.email, .pushplus, .serverPush, .dingtalk, .feishu, .wecom, .webhook]

/-- The display name used in the dispatch loop's log lines. -/
def channelName : Channel → String
  | .email => "Email"
  | .pushplus => "PushPlus"
  | .serverPush => "Server Push"
  | .dingtalk => "DingTalk"
  | .feishu => "Feishu"
  | .wecom => "WeChat Work"
  | .webhook => "Webhook"

/-- NotificationKit configuration read from the environment: the email
fields default to the empty string, the token and webhook fields are
None when the variable is unset. -/
structure NotifyConfig where
  email_user : String
  email_pass : String
  email_to : String
  pushplus_token : Option String
  server_push_key : Option String
  dingding_webhook : Option String
  feishu_webhook : Option String
  weixin_webhook : Option String
  webhook_url : Option String
deriving DecidableEq, Repr

/-- Result of one channel delivery attempt as the dispatch loop
records it: delivered, or failed with the exception text. -/
inductive SendOutcome where
  | delivered
  | failedSend (reason : String)
deriving DecidableEq, Repr

/-- What the external transport would do for each channel if its send
function reaches the network call. -/
structure ChannelWorld where
  email : SendOutcome
  pushplus : SendOutcome
  serverPush : SendOutcome
  dingtalk : SendOutcome
  feishu : SendOutcome
  wecom : SendOutcome
  webhook : SendOutcome
deriving DecidableEq, Repr

/-- Python falsiness of an optional environment string. -/
def optMissing : Option String → Bool
  | none => true
  | some s => s = ""

/-- send_email: raises ValueError when the email configuration is
incomplete, otherwise performs the delivery. -/
def send_email (cfg : NotifyConfig) (w : ChannelWorld) : SendOutcome :=
  if cfg.email_user = "" || cfg.email_pass = "" || cfg.email_to = "" then
    .failedSend "Email configuration not set"
  else w.email

def send_pushplus (cfg : NotifyConfig) (w : ChannelWorld) : SendOutcome :=
  if optMissing cfg.pushplus_token then .failedSend "PushPlus Token not configured"
  else w.pushplus

def send_serverPush (cfg : NotifyConfig) (w : ChannelWorld) : SendOutcome :=
  if optMissing cfg.server_push_key then .failedSend "Server Push key not configured"
  else w.serverPush

def send_dingtalk (cfg : NotifyConfig) (w : ChannelWorld) : SendOutcome :=
  if optMissing cfg.dingding_webhook then .failedSend "DingTalk Webhook not configured"
  else w.dingtalk

def send_feishu (cfg : NotifyConfig) (w : ChannelWorld) : SendOutcome :=
  if optMissing cfg.feishu_webhook then .failedSend "Feishu Webhook not configured"
  else w.feishu

def send_wecom (cfg : NotifyConfig) (w : ChannelWorld) : SendOutcome :=
  if optMissing cfg.weixin_webhook then .failedSend "WeChat Work Webhook not configured"
  else w.wecom

def send_webhook (cfg : NotifyConfig) (w : ChannelWorld) : SendOutcome :=
  if optMissing cfg.webhook_url then .failedSend "Webhook URL not configured"
  else w.webhook

/-- The send function the dispatch loop invokes for one channel. -/
def sendChannel (cfg : NotifyConfig) (w : ChannelWorld) : Channel → SendOutcome
  | .email => send_email cfg w
  | .pushplus => send_pushplus cfg w
  | .serverPush => send_serverPush cfg w
  | .dingtalk => send_dingtalk cfg w
  | .feishu => send_feishu cfg w
  | .wecom => send_wecom cfg w
  | .webhook => send_webhook cfg w

/-- The guard each send function checks: true when the channel's
configuration is absent (and the send raises ValueError). -/
def channelConfigMissing (cfg : NotifyConfig) : Channel → Bool
  | .email => cfg.email_user = "" || cfg.email_pass = "" || cfg.email_to = ""
  | .pushplus => optMissing cfg.pushplus_token
  | .serverPush => optMissing cfg.server_push_key
  | .dingtalk => optMissing cfg.dingding_webhook
  | .feishu => optMissing cfg.feishu_webhook
  | .wecom => optMissing cfg.weixin_webhook
  | .webhook => optMissing cfg.webhook_url

/-- The ValueError text each send function raises when unconfigured. -/
def notConfiguredMsg : Channel → String
  | .email => "Email configuration not set"
  | .pushplus => "PushPlus Token not configured"
  | .serverPush => "Server Push key not configured"
  | .dingtalk => "DingTalk Webhook not configured"
  | .feishu => "Feishu Webhook not configured"
  | .wecom => "WeChat Work Webhook not configured"
  | .webhook => "Webhook URL not configured"

/-- push_message from src/utils/notify.py: iterate the fixed channel
list, attempt every delivery, catch each failure and record it without
aborting the loop. The returned list is the sequence of per-channel
attempts in order. -/
def push_message (cfg : NotifyConfig) (w : ChannelWorld) :
    List (String × SendOutcome) :=
  channelOrder.map (fun c => (channelName c, sendChannel cfg w c))

/-! ## The main run (main in src/checkin.py) -/

/-- What main observes for one AnyRouter/AgentRouter account: either
an exception escaping check_in_account, or its (success, user_info)
return value. -/
inductive AccountStep where
  | exn (msg : String)
  | res (success : Bool) (info : Option UserInfoRes)
deriving DecidableEq, Repr

/-- What main observes for one jiubanai or baozi account: either an
exception, or the (success, detail text) return value. -/
inductive FamStep where
  | exn (msg : String)
  | res (success : Bool) (info : String)
deriving DecidableEq, Repr

/-- The account_key main builds for the i-th account (0-based). -/
def acctKey (i : Nat) : String := "account_" ++ toString (i + 1)

/-- Accumulator of the AnyRouter/AgentRouter loop in main. -/
structure LoopState where
  success_count : Nat
  need_notify : Bool
  content : List String
  balances : List (String × UserInfoOk)
deriving DecidableEq, Repr

/-- One iteration of the AnyRouter/AgentRouter loop: count successes,
flag failures and exceptions for notification, record balances of
accounts whose user-info fetch succeeded, and append the per-account
notification entry for failed accounts. -/
def procAccount (st : LoopState) (i : Nat) (name : String) (step : AccountStep) :
    LoopState :=
  match step with
  | .exn m =>
    { st with
      need_notify := true
      content := st.content ++ ["[FAIL] " ++ name ++ " exception: " ++ strTake m 50 ++ "..."] }
  | .res ok info =>
    let success_count := if ok then st.success_count + 1 else st.success_count
    let balances :=
      match info with
      | some (.ok u) => st.balances ++ [(acctKey i, u)]
      | _ => st.balances
    if ok then
      { st with success_count := success_count, balances := balances }
    else
      let entry := "[FAIL] " ++ name ++
        (match info with
         | some (.ok u) => "\n" ++ userInfoDisplay u
         | some (.err e) => "\n" ++ e
         | none => "")
      { success_count := success_count
        need_notify := true
        content := st.content ++ [entry]
        balances := balances }

/-- The AnyRouter/AgentRouter loop of main. -/
def runLoop : List (String × AccountStep) → Nat → LoopState → LoopState
  | [], _, st => st
  | (name, step) :: rest, i, st => runLoop rest (i + 1) (procAccount st i name step)

/-- The balance-change decision: False when no fingerprint is
computable, True on a first run or on a fingerprint mismatch. -/
def balanceChangedFlag (cur last : Option String) : Bool :=
  match cur with
  | none => false
  | some c =>
    match last with
    | none => true
    | some l => c ≠ l

/-- The balance entry added to the notification for one account. -/
def balanceEntry (name : String) (u : UserInfoOk) : String :=
  "[BALANCE] " ++ name ++ "\n:money: Current balance: $" ++ renderQ2 u.quota ++
    ", Used: $" ++ renderQ2 u.used_quota

/-- The second pass of main: when the balance changed, append a
balance line for every account with a recorded balance, unless the
account name already occurs in an existing notification item. -/
def balancePass : List (String × AccountStep) → Nat → List (String × UserInfoOk) →
    List String → List String
  | [], _, _, content => content
  | (name, _) :: rest, i, balances, content =>
    let content2 :=
      match alookup balances (acctKey i) with
      | some u =>
        if content.any (fun item => strContains item name) then content
        else content ++ [balanceEntry name u]
      | none => content
    balancePass rest (i + 1) balances content2

/-- Success count of a jiubanai or baozi family. -/
def famSucc (l : List FamStep) : Nat :=
  l.countP (fun s => match s with | .res true _ => true | _ => false)

/-- The notification entries of the jiubanai loop: one per account,
whatever the outcome. -/
def jiuContentList : List FamStep → Nat → List String
  | [], _ => []
  | step :: rest, i =>
    (match step with
     | .exn m => "[FAIL] jiubanai Account " ++ toString (i + 1) ++ " exception: " ++
         strTake m 50 ++ "..."
     | .res ok info =>
       (if ok then "[SUCCESS]" else "[FAIL]") ++ " jiubanai Account " ++ toString (i + 1) ++
         (if info = "" then "" else "\n" ++ info)) :: jiuContentList rest (i + 1)

/-- The notification entries of the baozi loop: one per account, with
the configured display name when present and the [INFO] tag for
non-successful outcomes. -/
def baoziContentList : List (Option String × FamStep) → Nat → List String
  | [], _ => []
  | (nm, step) :: rest, i =>
    let name := nm.getD ("baozi Account " ++ toString (i + 1))
    (match step with
     | .exn m => "[FAIL] baozi Account " ++ toString (i + 1) ++ " exception: " ++
         strTake m 50 ++ "..."
     | .res ok info =>
       (if ok then "[SUCCESS]" else "[INFO]") ++ " " ++ name ++
         (if info = "" then "" else "\n" ++ info)) :: baoziContentList rest (i + 1)

def famSuccB (l : List (Option String × FamStep)) : Nat :=
  famSucc (l.map Prod.snd)

/-- Everything a run of main produces that the claims talk about. -/
structure MainResult where
  successCount : Nat
  jiuSuccess : Nat
  baoziSuccess : Nat
  loadedHash : Option String
  currentHash : Option String
  balances : List (String × UserInfoOk)
  balanceChanged : Bool
  needNotify : Bool
  contentMain : List String
  contentJiu : List String
  contentBaozi : List String
  fileFinal : Option String
  writeCount : Nat
  pushInvoked : Bool
  pushResults : List (String × SendOutcome)
  exitCode : Nat
deriving DecidableEq, Repr

/-- Initial accumulator of the AnyRouter/AgentRouter loop. -/
def initLoopState : LoopState := ⟨0, false, [], []⟩

/-- State after the AnyRouter/AgentRouter loop of main. -/
def loopStateOf (accounts : List (String × AccountStep)) : LoopState :=
  runLoop accounts 0 initLoopState

/-- load_balance_hash: the stripped content of the persisted file, or
None when the file is absent or unreadable. -/
def lastHashOf (fileInit : Option String) : Option String :=
  fileInit.map strStrip

/-- current_balance_hash in main: computable only when some account
yielded a balance. -/
def currentHashOf (accounts : List (String × AccountStep)) : Option String :=
  if (loopStateOf accounts).balances.isEmpty then none
  else some (generate_balance_hash (loopStateOf accounts).balances)

/-- balance_changed in main. -/
def changedOf (accounts : List (String × AccountStep)) (fileInit : Option String) : Bool :=
  balanceChangedFlag (currentHashOf accounts) (lastHashOf fileInit)

/-- notification_content after the balance pass. -/
def contentMainOf (accounts : List (String × AccountStep)) (fileInit : Option String) :
    List String :=
  if changedOf accounts fileInit then
    balancePass accounts 0 (loopStateOf accounts).balances (loopStateOf accounts).content
  else (loopStateOf accounts).content

/-- need_notify at the dispatch decision: failures and exceptions from
the loop, a first run or balance change, and unconditionally any
configured jiubanai or baozi account. -/
def needNotifyOf (accounts : List (String × AccountStep)) (fileInit : Option String)
    (jiu : List FamStep) (baozi : List (Option String × FamStep)) : Bool :=
  (((loopStateOf accounts).need_notify || changedOf accounts fileInit) ||
    !jiu.isEmpty) || !baozi.isEmpty

/-- The dispatch decision of main: need_notify and some content. -/
def pushInvokedOf (accounts : List (String × AccountStep)) (fileInit : Option String)
    (jiu : List FamStep) (baozi : List (Option String × FamStep)) : Bool :=
  needNotifyOf accounts fileInit jiu baozi &&
    (!(contentMainOf accounts fileInit).isEmpty || !(jiuContentList jiu 0).isEmpty ||
      !(baoziContentList baozi 0).isEmpty)

/-- The exit code of main: 0 iff some account of any family succeeded. -/
def exitCodeOf (accounts : List (String × AccountStep)) (jiu : List FamStep)
    (baozi : List (Option String × FamStep)) : Nat :=
  if 0 < (loopStateOf accounts).success_count + famSucc jiu + famSuccB baozi then 0 else 1

/-- main from src/checkin.py over the inputs it consumes: the ordered
AnyRouter/AgentRouter account results (with display names), the
persisted fingerprint file content, the jiubanai and baozi account
results, and the notification configuration and channel world. Every
jiubanai or baozi account sets need_notify; the fingerprint is
recomputed from the collected balances, compared with the loaded one,
and saved when computable; the dispatcher runs only when need_notify
holds and some notification content exists; the exit code is 0 iff
some account of any family succeeded. -/
def mainRun (accounts : List (String × AccountStep)) (fileInit : Option String)
    (jiu : List FamStep) (baozi : List (Option String × FamStep))
    (cfg : NotifyConfig) (w : ChannelWorld) : MainResult :=
  { successCount := (loopStateOf accounts).success_count
    jiuSuccess := famSucc jiu
    baoziSuccess := famSuccB baozi
    loadedHash := lastHashOf fileInit
    currentHash := currentHashOf accounts
    balances := (loopStateOf accounts).balances
    balanceChanged := changedOf accounts fileInit
    needNotify := needNotifyOf accounts fileInit jiu baozi
    contentMain := contentMainOf accounts fileInit
    contentJiu := jiuContentList jiu 0
    contentBaozi := baoziContentList baozi 0
    fileFinal :=
      match currentHashOf accounts with
      | some c => some c
      | none => fileInit
    writeCount :=
      match currentHashOf accounts with
      | some _ => 1
      | none => 0
    pushInvoked := pushInvokedOf accounts fileInit jiu baozi
    pushResults :=
      if pushInvokedOf accounts fileInit jiu baozi then push_message cfg w else []
    exitCode := exitCodeOf accounts jiu baozi }

/-! ## Lemmas about the embedded operations -/

theorem alookup_isSome_iff_mem {β : Type} (m : List (String × β)) (k : String) :
    (alookup m k).isSome = true ↔ k ∈ m.map Prod.fst := by
  induction m with
  | nil => simp [alookup]
  | cons p t ih =>
    obtain ⟨k2, v⟩ := p
    by_cases h : k2 = k
    · subst h; simp [alookup]
    · have h2 : ¬(k = k2) := fun hh => h hh.symm
      simp only [alookup, h, if_false, List.map_cons, List.mem_cons, h2, false_or]
      exact ih

theorem alookup_map_update_ne {β : Type} (t : List (String × β)) (k k2 : String) (v : β)
    (h : k ≠ k2) :
    alookup (t.map (fun p => if p.1 = k then (k, v) else p)) k2 = alookup t k2 := by
  induction t with
  | nil => rfl
  | cons p t ih =>
    obtain ⟨k3, v3⟩ := p
    simp only [List.map_cons]
    by_cases h3 : k3 = k
    · subst h3
      rw [show (if k3 = k3 then (k3, v) else (k3, v3)) = (k3, v) from if_pos rfl]
      have h4 : ¬(k3 = k2) := h
      simp [alookup, h4, ih]
    · rw [if_neg h3]
      by_cases h4 : k3 = k2 <;> simp [alookup, h3, h4, ih]

theorem alookup_append_single_ne {β : Type} (t : List (String × β)) (k k2 : String) (v : β)
    (h : k ≠ k2) : alookup (t ++ [(k, v)]) k2 = alookup t k2 := by
  induction t with
  | nil => simp [alookup, h]
  | cons p t ih =>
    obtain ⟨k3, v3⟩ := p
    by_cases h3 : k3 = k2 <;> simp [alookup, h3, ih]

theorem alookup_dictInsert_ne {β : Type} (m : List (String × β)) (k k2 : String) (v : β)
    (h : k ≠ k2) : alookup (dictInsert m k v) k2 = alookup m k2 := by
  unfold dictInsert
  by_cases hs : (alookup m k).isSome <;>
    simp only [hs, Bool.not_eq_true, if_true, if_false, Bool.false_eq_true,
      alookup_map_update_ne m k k2 v h, alookup_append_single_ne m k k2 v h]

/-- A loop input whose check_in_account call returned success. -/
def isSuccStep (p : String × AccountStep) : Bool :=
  match p.2 with
  | .res true _ => true
  | _ => false

/-- The balance entries contributed by one account. -/
def stepBalance (i : Nat) : AccountStep → List (String × UserInfoOk)
  | .res _ (some (.ok u)) => [(acctKey i, u)]
  | _ => []

/-- The balance entries collected over a list of accounts starting at
index i. -/
def collectBalances : List (String × AccountStep) → Nat → List (String × UserInfoOk)
  | [], _ => []
  | (_, s) :: rest, i => stepBalance i s ++ collectBalances rest (i + 1)

theorem procAccount_success_count (st : LoopState) (i : Nat) (name : String)
    (s : AccountStep) :
    (procAccount st i name s).success_count =
      st.success_count + (if isSuccStep (name, s) then 1 else 0) := by
  cases s with
  | exn m => simp [procAccount, isSuccStep]
  | res ok info =>
    cases info with
    | none => cases ok <;> simp [procAccount, isSuccStep]
    | some v => cases v <;> cases ok <;> simp [procAccount, isSuccStep]

theorem procAccount_balances (st : LoopState) (i : Nat) (name : String) (s : AccountStep) :
    (procAccount st i name s).balances = st.balances ++ stepBalance i s := by
  cases s with
  | exn m => simp [procAccount, stepBalance]
  | res ok info =>
    cases info with
    | none => cases ok <;> simp [procAccount, stepBalance]
    | some v => cases v <;> cases ok <;> simp [procAccount, stepBalance]

theorem procAccount_of_success (st : LoopState) (i : Nat) (name : String)
    (s : AccountStep) (h : isSuccStep (name, s) = true) :
    (procAccount st i name s).need_notify = st.need_notify ∧
      (procAccount st i name s).content = st.content := by
  cases s with
  | exn m => simp [isSuccStep] at h
  | res ok info =>
    cases ok
    · simp [isSuccStep] at h
    · cases info with
      | none => simp [procAccount]
      | some v => cases v <;> simp [procAccount]

theorem runLoop_success_count (l : List (String × AccountStep)) (i : Nat) (st : LoopState) :
    (runLoop l i st).success_count = st.success_count + l.countP isSuccStep := by
  induction l generalizing i st with
  | nil => simp [runLoop]
  | cons p t ih =>
    obtain ⟨name, s⟩ := p
    rw [runLoop, ih, procAccount_success_count]
    by_cases h : isSuccStep (name, s) = true <;>
      simp [List.countP_cons, h] <;> omega

theorem runLoop_balances (l : List (String × AccountStep)) (i : Nat) (st : LoopState) :
    (runLoop l i st).balances = st.balances ++ collectBalances l i := by
  induction l generalizing i st with
  | nil => simp [runLoop, collectBalances]
  | cons p t ih =>
    obtain ⟨name, s⟩ := p
    rw [runLoop, ih, procAccount_balances, collectBalances]
    simp [List.append_assoc]

theorem runLoop_all_success (l : List (String × AccountStep)) (i : Nat) (st : LoopState)
    (h : ∀ p ∈ l, isSuccStep p = true) :
    (runLoop l i st).need_notify = st.need_notify ∧
      (runLoop l i st).content = st.content := by
  induction l generalizing i st with
  | nil => exact ⟨rfl, rfl⟩
  | cons p t ih =>
    obtain ⟨name, s⟩ := p
    have hp := procAccount_of_success st i name s (h (name, s) (List.mem_cons_self _ _))
    rw [runLoop]
    have := ih (i + 1) (procAccount st i name s) (fun q hq => h q (List.mem_cons_of_mem _ hq))
    exact ⟨this.1.trans hp.1, this.2.trans hp.2⟩

theorem collectBalances_key_exists (l : List (String × AccountStep)) (i : Nat)
    (h : collectBalances l i ≠ []) :
    ∃ j, j < l.length ∧ acctKey (i + j) ∈ (collectBalances l i).map Prod.fst := by
  induction l generalizing i with
  | nil => exact absurd rfl h
  | cons p t ih =>
    obtain ⟨name, s⟩ := p
    by_cases hs : stepBalance i s = []
    · have h2 : collectBalances t (i + 1) ≠ [] := by
        intro hh
        exact h (by simp [collectBalances, hs, hh])
      obtain ⟨j, hj, hm⟩ := ih (i + 1) h2
      refine ⟨j + 1, by simp only [List.length_cons]; omega, ?_⟩
      rw [show i + (j + 1) = i + 1 + j by omega]
      simp only [collectBalances, List.map_append, List.mem_append]
      exact Or.inr hm
    · refine ⟨0, by simp, ?_⟩
      simp only [Nat.add_zero, collectBalances, List.map_append, List.mem_append]
      left
      cases s with
      | exn m => exact absurd rfl hs
      | res ok info =>
        cases info with
        | none => exact absurd rfl hs
        | some v =>
          cases v with
          | ok u => simp [stepBalance]
          | err e => exact absurd rfl hs

theorem balancePass_ne_nil_of_ne_nil (l : List (String × AccountStep)) (i : Nat)
    (balances : List (String × UserInfoOk)) (content : List String)
    (h : content ≠ []) : balancePass l i balances content ≠ [] := by
  induction l generalizing i content with
  | nil => exact h
  | cons p t ih =>
    obtain ⟨name, s⟩ := p
    rw [balancePass]
    apply ih
    cases hl : alookup balances (acctKey i) with
    | none => simpa [hl] using h
    | some u =>
      simp only [hl]
      by_cases ha : content.any (fun item => strContains item name)
      · simpa [ha] using h
      · simp [ha]

theorem balancePass_ne_nil_of_balance (l : List (String × AccountStep)) (i : Nat)
    (balances : List (String × UserInfoOk)) (content : List String) (j : Nat)
    (hj : j < l.length) (hl : (alookup balances (acctKey (i + j))).isSome = true) :
    balancePass l i balances content ≠ [] := by
  induction l generalizing i j content with
  | nil => simp at hj
  | cons p t ih =>
    obtain ⟨name, s⟩ := p
    rw [balancePass]
    cases j with
    | zero =>
      rw [Nat.add_zero] at hl
      obtain ⟨u, hu⟩ := Option.isSome_iff_exists.mp hl
      simp only [hu]
      by_cases ha : content.any (fun item => strContains item name)
      · have hc : content ≠ [] := by
          intro hh; rw [hh] at ha; simp at ha
        simp only [ha, if_true]
        exact balancePass_ne_nil_of_ne_nil t (i + 1) balances content hc
      · simp only [ha, if_false]
        exact balancePass_ne_nil_of_ne_nil t (i + 1) balances _ (by simp)
    | succ j2 =>
      apply ih (i + 1) _ j2 (by simpa using Nat.lt_of_succ_lt_succ hj)
      rw [show i + 1 + j2 = i + (j2 + 1) by omega]
      exact hl

theorem collectWafFrom_lookup_none (bc : List (String × Option String))
    (acc : List (String × String)) (r0 : String)
    (hacc : alookup acc r0 = none) (hr : ∀ v, (r0, some v) ∉ bc) :
    alookup (collectWafFrom acc bc) r0 = none := by
  induction bc generalizing acc with
  | nil => exact hacc
  | cons c t ih =>
    obtain ⟨cn, cv⟩ := c
    have hrt : ∀ v, (r0, some v) ∉ t := fun v hv => hr v (List.mem_cons_of_mem _ hv)
    cases cv with
    | none => exact ih acc hacc hrt
    | some v =>
      have hne : cn ≠ r0 := by
        intro hh
        exact hr v (hh ▸ List.mem_cons_self _ _)
      refine ih _ ?_ hrt
      by_cases hc : requiredCookies.contains cn = true
      · rw [if_pos hc, alookup_dictInsert_ne _ _ _ _ hne]
        exact hacc
      · rw [if_neg hc]
        exact hacc

theorem get_waf_cookies_none_of_missing (bc : List (String × Option String)) (r0 : String)
    (hreq : r0 ∈ requiredCookies) (hr : ∀ v, (r0, some v) ∉ bc) :
    get_waf_cookies bc = none := by
  have hnone : alookup (collectWaf bc) r0 = none :=
    collectWafFrom_lookup_none bc [] r0 rfl hr
  unfold get_waf_cookies
  have hmem : r0 ∈ requiredCookies.filter (fun c => !(alookup (collectWaf bc) c).isSome) := by
    rw [List.mem_filter]
    exact ⟨hreq, by rw [hnone]; rfl⟩
  have hne : requiredCookies.filter (fun c => !(alookup (collectWaf bc) c).isSome) ≠ [] := by
    intro hh; rw [hh] at hmem; simp at hmem
  simp only [List.isEmpty_iff, hne, if_false]

theorem sortStrings_eq_of_perm {l1 l2 : List String} (h : l1.Perm l2) :
    sortStrings l1 = sortStrings l2 :=
  List.eq_of_perm_of_sorted
    ((List.perm_insertionSort _ l1).trans (h.trans (List.perm_insertionSort _ l2).symm))
    (List.sorted_insertionSort _ l1) (List.sorted_insertionSort _ l2)

theorem quotaOnly_keys (b : List (String × UserInfoOk)) :
    (quotaOnly b).map Prod.fst = b.map Prod.fst := by
  induction b with
  | nil => rfl
  | cons p t ih => simp [quotaOnly] at ih ⊢

theorem jsonDumpsSortedQ_congr (m1 m2 : List (String × Int))
    (hkeys : (m1.map Prod.fst).Perm (m2.map Prod.fst))
    (hval : ∀ k, alookup m1 k = alookup m2 k) :
    jsonDumpsSortedQ m1 = jsonDumpsSortedQ m2 := by
  unfold jsonDumpsSortedQ
  rw [sortStrings_eq_of_perm hkeys]
  have hfun : (fun k => jsonQuote k ++ ":" ++ renderQ2 (qLookupD m1 k)) =
      (fun k => jsonQuote k ++ ":" ++ renderQ2 (qLookupD m2 k)) := by
    funext k
    unfold qLookupD
    rw [hval k]
  rw [hfun]

theorem generate_balance_hash_eq (b : List (String × UserInfoOk)) :
    generate_balance_hash b = strTake (sha256hex (jsonDumpsSortedQ (quotaOnly b))) 16 := by
  cases b <;> rfl

/-! ## Claim theorems -/

/-- Notification configuration with every channel absent, as in a bare
environment. -/
def exampleConfig : NotifyConfig := ⟨"", "", "", none, none, none, none, none, none⟩

/-- A channel world where every reachable delivery would succeed. -/
def exampleWorld : ChannelWorld :=
  ⟨.delivered, .delivered, .delivered, .delivered, .delivered, .delivered, .delivered⟩

/-- C3: the fingerprint is the first 16 hex characters of the SHA-256
digest of the balance mapping reduced to key-to-quota only, serialized
with sorted keys and compact separators; any two mappings equal as
key-to-quota functions (whatever the key insertion order and used-quota
values) produce identical fingerprints. -/
theorem c3_fingerprint_canonical (b1 b2 : List (String × UserInfoOk))
    (h1 : (b1.map Prod.fst).Nodup) (h2 : (b2.map Prod.fst).Nodup)
    (hq : ∀ k, quotaLookup b1 k = quotaLookup b2 k) :
    generate_balance_hash b1 = generate_balance_hash b2 ∧
      ∀ b : List (String × UserInfoOk),
        generate_balance_hash b = strTake (sha256hex (jsonDumpsSortedQ (quotaOnly b))) 16 := by
  refine ⟨?_, generate_balance_hash_eq⟩
  have hmem : ∀ k, k ∈ (quotaOnly b1).map Prod.fst ↔ k ∈ (quotaOnly b2).map Prod.fst := by
    intro k
    rw [← alookup_isSome_iff_mem, ← alookup_isSome_iff_mem]
    show (quotaLookup b1 k).isSome = true ↔ (quotaLookup b2 k).isSome = true
    rw [hq k]
  have hn1 : ((quotaOnly b1).map Prod.fst).Nodup := by rw [quotaOnly_keys]; exact h1
  have hn2 : ((quotaOnly b2).map Prod.fst).Nodup := by rw [quotaOnly_keys]; exact h2
  have hperm := (List.perm_ext_iff_of_nodup hn1 hn2).mpr hmem
  rw [generate_balance_hash_eq, generate_balance_hash_eq,
    jsonDumpsSortedQ_congr _ _ hperm hq]

/-- C3 witness: two concrete mappings with permuted insertion order and
different used-quota values hash identically. -/
theorem c3_witness :
    generate_balance_hash [("a", ⟨200, 700⟩), ("b", ⟨300, 900⟩)] =
      generate_balance_hash [("b", ⟨300, 100⟩), ("a", ⟨200, 0⟩)] :=
  (c3_fingerprint_canonical [("a", ⟨200, 700⟩), ("b", ⟨300, 900⟩)]
    [("b", ⟨300, 100⟩), ("a", ⟨200, 0⟩)] (by decide) (by decide) (by
      intro k
      by_cases ha : ("a" : String) = k
      · subst ha; rfl
      · by_cases hb : ("b" : String) = k
        · subst hb; rfl
        · simp [quotaLookup, quotaOnly, alookup, ha, hb])).1

/-- C5: execute_check_in classifies an explicit check-in response by
the first matching rule: 200 JSON object with ret == 1 or code == 0 or
truthy success is a success; 200 JSON object with none of them is a
failure detailed by the msg field (falling back to message, then
Unknown error), in particular ret 0 with msg "already signed in" fails
with that detail; an undecodable 200 body is a success iff its
lowercased text contains "success", else an invalid-format failure; a
non-200 status fails with the HTTP status. -/
theorem c5_execute_check_in_inference :
    (∀ (text : String) (fields : List (String × JVal)),
      (pyEqInt (jGet fields "ret") 1 || pyEqInt (jGet fields "code") 0 ||
        truthyOpt (jGet fields "success")) = true →
      execute_check_in ⟨200, text, some (.jobj fields)⟩ = .success) ∧
    (∀ (text : String) (fields : List (String × JVal)),
      (pyEqInt (jGet fields "ret") 1 || pyEqInt (jGet fields "code") 0 ||
        truthyOpt (jGet fields "success")) = false →
      execute_check_in ⟨200, text, some (.jobj fields)⟩ =
        .failed (jGetD fields "msg" (jGetD fields "message" (.jstr "Unknown error")))) ∧
    (execute_check_in ⟨200, "\x7b\"ret\": 0, \"msg\": \"already signed in\"\x7d",
        some (.jobj [("ret", .jnum 0), ("msg", .jstr "already signed in")])⟩ =
      .failed (.jstr "already signed in")) ∧
    (∀ text : String, strContains (strLower text) "success" = true →
      execute_check_in ⟨200, text, none⟩ = .success) ∧
    (∀ text : String, strContains (strLower text) "success" = false →
      execute_check_in ⟨200, text, none⟩ = .failed (.jstr "Invalid response format")) ∧
    (∀ (st : Nat) (text : String) (j : Option JVal), st ≠ 200 →
      execute_check_in ⟨st, text, j⟩ = .failed (.jstr ("HTTP " ++ toString st))) := by
  refine ⟨?_, ?_, rfl, ?_, ?_, ?_⟩
  · intro text fields h
    simp [execute_check_in, h]
  · intro text fields h
    simp [execute_check_in, h]
  · intro text h
    simp [execute_check_in, h]
  · intro text h
    simp [execute_check_in, h]
  · intro st text j h
    unfold execute_check_in
    rw [if_neg (by simpa using h)]

/-- C5 witness: a non-200 response fails with the HTTP status as
detail. -/
theorem c5_witness :
    execute_check_in ⟨503, "err", none⟩ = .failed (.jstr "HTTP 503") :=
  c5_execute_check_in_inference.2.2.2.2.2 503 "err" none (by decide)

/-- C6: when any required WAF cookie name has no value among the
browser cookies, the whole acquisition returns None (no partial cookie
set is used) and the account outcome is failed with no balance. -/
theorem c6_missing_waf_cookie_total_failure (env : AccountEnv) (cookies : CookiesData)
    (bc : List (String × Option String)) (r0 : String)
    (hwaf : env.needsWaf = true) (hbrowser : env.browser = some bc)
    (hreq : r0 ∈ requiredCookies) (hmiss : ∀ v, (r0, some v) ∉ bc) :
    get_waf_cookies bc = none ∧ check_in_account env cookies = (false, none) := by
  have hw := get_waf_cookies_none_of_missing bc r0 hreq hmiss
  refine ⟨hw, ?_⟩
  unfold check_in_account
  cases hp : env.providerKnown
  · simp
  · simp only [Bool.not_true, Bool.false_eq_true, if_false]
    by_cases hu : (parse_cookies cookies).isEmpty
    · simp [hu]
    · simp [hu, prepare_cookies, hwaf, hbrowser, hw]

/-- C6 witness: with acw_tc and cdn_sec_tc present but acw_sc__v2
absent, acquisition and account both fail. -/
theorem c6_witness :
    get_waf_cookies [("acw_tc", some "a"), ("cdn_sec_tc", some "b")] = none ∧
      check_in_account
        ⟨true, true, true, some [("acw_tc", some "a"), ("cdn_sec_tc", some "b")],
          ⟨200, "", none⟩, ⟨200, "", none⟩⟩
        (.asMap [("session", "x")]) = (false, none) :=
  c6_missing_waf_cookie_total_failure
    ⟨true, true, true, some [("acw_tc", some "a"), ("cdn_sec_tc", some "b")],
      ⟨200, "", none⟩, ⟨200, "", none⟩⟩
    (.asMap [("session", "x")])
    [("acw_tc", some "a"), ("cdn_sec_tc", some "b")] "acw_sc__v2"
    rfl rfl (by decide) (by intro v hv; simp at hv)

/-- C7 (code bug): a baozi 200 JSON response with a falsy success
field and an explicit message never reaches the path returning the
message as detail: because the raw body contains the substring
"success", the function enters the leftover balance-comparison branch,
calls get_user_info with the wrong arity and the resulting TypeError
is reported instead of the message field. -/
theorem c7_baozi_message_detail_bug :
    check_in_baozi_account (.asMap [("session", "x")])
      ⟨200, "\x7b\"success\": false, \"message\": \"今日已抽奖\"\x7d",
        some (.jobj [("success", .jbool false), ("message", .jstr "今日已抽奖")])⟩ =
      (false, "Error: " ++ baoziTypeErrorMsg) ∧
    "Error: " ++ baoziTypeErrorMsg ≠ "今日已抽奖" :=
  ⟨rfl, by decide⟩

/-- C8: a 200 user-info response with quota 1000000 and used_quota
500000 and divisor 500000 yields the snapshot quota 2.0 and used
quota 1.0 (the hundredths 200 and 100, which render as "2.0" and
"1.0"). -/
theorem c8_user_info_scaling :
    get_user_info ⟨200, "", some (.jobj [("success", .jbool true),
        ("data", .jobj [("quota", .jnum 1000000), ("used_quota", .jnum 500000)])])⟩ =
      .ok ⟨200, 100⟩ ∧ renderQ2 200 = "2.0" ∧ renderQ2 100 = "1.0" :=
  ⟨rfl, rfl, rfl⟩

/-- C10: a channel whose configuration is absent is still attempted:
its send function raises the not-configured ValueError, push_message
records it as a failed delivery, and all seven channels are attempted
in the fixed order regardless. -/
theorem c10_absent_channel_isolated (cfg : NotifyConfig) (w : ChannelWorld) (c : Channel)
    (h : channelConfigMissing cfg c = true) :
    sendChannel cfg w c = .failedSend (notConfiguredMsg c) ∧
      (push_message cfg w).map Prod.fst =
        ["Email", "PushPlus", "Server Push", "DingTalk", "Feishu", "WeChat Work", "Webhook"] ∧
      (channelName c, SendOutcome.failedSend (notConfiguredMsg c)) ∈ push_message cfg w := by
  have hs : sendChannel cfg w c = .failedSend (notConfiguredMsg c) := by
    cases c <;> exact if_pos h
  refine ⟨hs, rfl, ?_⟩
  rw [← hs]
  cases c <;> simp [push_message, channelOrder]

/-- C10 witness: with no channel configured, PushPlus is recorded as a
failed delivery and all seven channels are still attempted. -/
theorem c10_witness :
    sendChannel exampleConfig exampleWorld .pushplus =
        .failedSend (notConfiguredMsg .pushplus) ∧
      (push_message exampleConfig exampleWorld).map Prod.fst =
        ["Email", "PushPlus", "Server Push", "DingTalk", "Feishu", "WeChat Work", "Webhook"] ∧
      (channelName .pushplus, SendOutcome.failedSend (notConfiguredMsg .pushplus)) ∈
        push_message exampleConfig exampleWorld :=
  c10_absent_channel_isolated exampleConfig exampleWorld .pushplus (by decide)

/-- A jiubanai or baozi step whose check-in returned success. -/
def isSuccFam (s : FamStep) : Bool :=
  match s with
  | .res true _ => true
  | _ => false

/-- C4: the exit code is 0 iff at least one account across all
provider families succeeded, the dispatcher attempts all seven
channels in the fixed order whenever it runs, and the channel
configuration and delivery outcomes never influence the exit code. -/
theorem c4_channel_isolation_and_exit (accounts : List (String × AccountStep))
    (fileInit : Option String) (jiu : List FamStep)
    (baozi : List (Option String × FamStep)) (cfg : NotifyConfig) (w : ChannelWorld) :
    ((mainRun accounts fileInit jiu baozi cfg w).exitCode = 0 ↔
      0 < accounts.countP isSuccStep + famSucc jiu + famSuccB baozi) ∧
    ((mainRun accounts fileInit jiu baozi cfg w).pushInvoked = true →
      (mainRun accounts fileInit jiu baozi cfg w).pushResults.map Prod.fst =
        ["Email", "PushPlus", "Server Push", "DingTalk", "Feishu", "WeChat Work", "Webhook"]) ∧
    (∀ (cfg2 : NotifyConfig) (w2 : ChannelWorld),
      (mainRun accounts fileInit jiu baozi cfg2 w2).exitCode =
        (mainRun accounts fileInit jiu baozi cfg w).exitCode) := by
  refine ⟨?_, ?_, fun cfg2 w2 => rfl⟩
  · show exitCodeOf accounts jiu baozi = 0 ↔ _
    unfold exitCodeOf
    have hs : (loopStateOf accounts).success_count = accounts.countP isSuccStep := by
      unfold loopStateOf
      rw [runLoop_success_count]
      simp [initLoopState]
    rw [hs]
    by_cases h : 0 < accounts.countP isSuccStep + famSucc jiu + famSuccB baozi
    · simp [h]
    · simp [h]
  · intro hp
    show (if pushInvokedOf accounts fileInit jiu baozi then push_message cfg w
      else []).map Prod.fst = _
    rw [if_pos (show pushInvokedOf accounts fileInit jiu baozi = true from hp)]
    rfl

/-- C4 witness: one successful account, one configured-and-failing
channel world: exit code 0 and all seven channels attempted. -/
theorem c4_witness :
    ((mainRun [("Account 1", .res false none)] none [.res true "ok"] []
        exampleConfig exampleWorld).exitCode = 0 ↔
      0 < ([("Account 1", AccountStep.res false none)]).countP isSuccStep +
        famSucc [.res true "ok"] + famSuccB []) ∧
    (mainRun [("Account 1", .res false none)] none [.res true "ok"] []
        exampleConfig exampleWorld).pushResults.map Prod.fst =
      ["Email", "PushPlus", "Server Push", "DingTalk", "Feishu", "WeChat Work", "Webhook"] :=
  ⟨(c4_channel_isolation_and_exit [("Account 1", .res false none)] none [.res true "ok"] []
      exampleConfig exampleWorld).1,
    (c4_channel_isolation_and_exit [("Account 1", .res false none)] none [.res true "ok"] []
      exampleConfig exampleWorld).2.1 (by decide)⟩

/-- C9: in every run the fingerprint file is written at most once,
exactly once when a fingerprint was computable (some account yielded a
balance) with the computed fingerprint as content, and left unchanged
when no account balance is known. -/
theorem c9_fingerprint_persistence (accounts : List (String × AccountStep))
    (fileInit : Option String) (jiu : List FamStep)
    (baozi : List (Option String × FamStep)) (cfg : NotifyConfig) (w : ChannelWorld) :
    (mainRun accounts fileInit jiu baozi cfg w).writeCount ≤ 1 ∧
    ((mainRun accounts fileInit jiu baozi cfg w).balances = [] →
      (mainRun accounts fileInit jiu baozi cfg w).fileFinal = fileInit ∧
        (mainRun accounts fileInit jiu baozi cfg w).writeCount = 0) ∧
    ((mainRun accounts fileInit jiu baozi cfg w).balances ≠ [] →
      (mainRun accounts fileInit jiu baozi cfg w).writeCount = 1 ∧
        (mainRun accounts fileInit jiu baozi cfg w).fileFinal =
          some (generate_balance_hash (mainRun accounts fileInit jiu baozi cfg w).balances)) := by
  by_cases hb : (loopStateOf accounts).balances = []
  · have hcur : currentHashOf accounts = none := by
      unfold currentHashOf
      rw [hb]
      rfl
    refine ⟨?_, fun _ => ⟨?_, ?_⟩, fun hne => absurd hb hne⟩
    · show (match currentHashOf accounts with | some _ => 1 | none => 0) ≤ 1
      rw [hcur]
      exact Nat.zero_le 1
    · show (match currentHashOf accounts with | some c => some c | none => fileInit) = fileInit
      rw [hcur]
    · show (match currentHashOf accounts with | some _ => 1 | none => 0) = 0
      rw [hcur]
  · have hcur : currentHashOf accounts =
        some (generate_balance_hash (loopStateOf accounts).balances) := by
      unfold currentHashOf
      cases hbb : (loopStateOf accounts).balances with
      | nil => exact absurd hbb hb
      | cons x xs => rfl
    refine ⟨?_, fun he => absurd he hb, fun _ => ⟨?_, ?_⟩⟩
    · show (match currentHashOf accounts with | some _ => 1 | none => 0) ≤ 1
      rw [hcur]
    · show (match currentHashOf accounts with | some _ => 1 | none => 0) = 1
      rw [hcur]
    · show (match currentHashOf accounts with | some c => some c | none => fileInit) =
        some (generate_balance_hash (loopStateOf accounts).balances)
      rw [hcur]

set_option maxRecDepth 16384 in
/-- C1 counterexample: a run where a prior fingerprint exists and
equals the recomputed one and every account (one AnyRouter account and
one jiubanai account) succeeded, yet need_notify is true and the
dispatcher runs, because every jiubanai account forces a notification
unconditionally. -/
theorem c1_counterexample :
    (∀ p ∈ [("Account 1", AccountStep.res true (some (.ok ⟨200, 100⟩)))], isSuccStep p = true) ∧
    (∀ s ∈ [FamStep.res true "Check-in successful"], isSuccFam s = true) ∧
    (mainRun [("Account 1", AccountStep.res true (some (.ok ⟨200, 100⟩)))]
      (some (generate_balance_hash [("account_1", ⟨200, 100⟩)]))
      [FamStep.res true "Check-in successful"] [] exampleConfig exampleWorld).loadedHash =
      (mainRun [("Account 1", AccountStep.res true (some (.ok ⟨200, 100⟩)))]
        (some (generate_balance_hash [("account_1", ⟨200, 100⟩)]))
        [FamStep.res true "Check-in successful"] [] exampleConfig exampleWorld).currentHash ∧
    (mainRun [("Account 1", AccountStep.res true (some (.ok ⟨200, 100⟩)))]
      (some (generate_balance_hash [("account_1", ⟨200, 100⟩)]))
      [FamStep.res true "Check-in successful"] [] exampleConfig exampleWorld).currentHash.isSome
      = true ∧
    (mainRun [("Account 1", AccountStep.res true (some (.ok ⟨200, 100⟩)))]
      (some (generate_balance_hash [("account_1", ⟨200, 100⟩)]))
      [FamStep.res true "Check-in successful"] [] exampleConfig exampleWorld).needNotify = true ∧
    (mainRun [("Account 1", AccountStep.res true (some (.ok ⟨200, 100⟩)))]
      (some (generate_balance_hash [("account_1", ⟨200, 100⟩)]))
      [FamStep.res true "Check-in successful"] [] exampleConfig exampleWorld).pushInvoked =
      true := by
  decide

/-- C1 (amended): when a prior fingerprint exists and equals the newly
computed one, every AnyRouter/AgentRouter account succeeded, and no
jiubanai or baozi accounts are configured, need_notify is false and
push_message is never invoked. -/
theorem c1_amended_no_unconditional_families (accounts : List (String × AccountStep))
    (fileInit : Option String) (cfg : NotifyConfig) (w : ChannelWorld) (c : String)
    (hall : ∀ p ∈ accounts, isSuccStep p = true)
    (hcur : (mainRun accounts fileInit [] [] cfg w).currentHash = some c)
    (hload : (mainRun accounts fileInit [] [] cfg w).loadedHash = some c) :
    (mainRun accounts fileInit [] [] cfg w).needNotify = false ∧
      (mainRun accounts fileInit [] [] cfg w).pushInvoked = false := by
  have hneed : (loopStateOf accounts).need_notify = false :=
    (runLoop_all_success accounts 0 initLoopState hall).1
  have hch : changedOf accounts fileInit = false := by
    unfold changedOf
    rw [show currentHashOf accounts = some c from hcur,
      show lastHashOf fileInit = some c from hload]
    simp [balanceChangedFlag]
  have hn : needNotifyOf accounts fileInit [] [] = false := by
    unfold needNotifyOf
    rw [hneed, hch]
    rfl
  refine ⟨hn, ?_⟩
  show pushInvokedOf accounts fileInit [] [] = false
  unfold pushInvokedOf
  rw [hn]
  rfl

set_option maxRecDepth 16384 in
/-- C1 witness: the amended claim at a concrete silent run (one
successful account, matching fingerprint, no jiubanai or baozi
accounts). -/
theorem c1_witness :
    (mainRun [("Account 1", AccountStep.res true (some (.ok ⟨200, 100⟩)))]
      (some (generate_balance_hash [("account_1", ⟨200, 100⟩)])) [] []
      exampleConfig exampleWorld).needNotify = false ∧
    (mainRun [("Account 1", AccountStep.res true (some (.ok ⟨200, 100⟩)))]
      (some (generate_balance_hash [("account_1", ⟨200, 100⟩)])) [] []
      exampleConfig exampleWorld).pushInvoked = false :=
  c1_amended_no_unconditional_families
    [("Account 1", AccountStep.res true (some (.ok ⟨200, 100⟩)))]
    (some (generate_balance_hash [("account_1", ⟨200, 100⟩)]))
    exampleConfig exampleWorld
    (generate_balance_hash [("account_1", ⟨200, 100⟩)])
    (by decide) (by decide) (by decide)

set_option maxRecDepth 16384 in
/-- C2 counterexample: a first run (no prior fingerprint) in which the
only account succeeds but yields no balance: no fingerprint is
computable, the first-run rule never fires, need_notify stays false
and no notification is sent. -/
theorem c2_counterexample :
    (mainRun [("Account 1", AccountStep.res true (some (.err "Failed to get user info: HTTP 500")))]
      none [] [] exampleConfig exampleWorld).loadedHash = none ∧
    (mainRun [("Account 1", AccountStep.res true (some (.err "Failed to get user info: HTTP 500")))]
      none [] [] exampleConfig exampleWorld).needNotify = false ∧
    (mainRun [("Account 1", AccountStep.res true (some (.err "Failed to get user info: HTTP 500")))]
      none [] [] exampleConfig exampleWorld).pushInvoked = false ∧
    (mainRun [("Account 1", AccountStep.res true (some (.err "Failed to get user info: HTTP 500")))]
      none [] [] exampleConfig exampleWorld).pushResults = [] := by
  decide

/-- C2 (amended): when no prior fingerprint is loadable and at least
one account yielded a known balance (so a fingerprint is computable),
need_notify is true and push_message is invoked, regardless of
check-in outcomes. -/
theorem c2_amended_first_run_notifies (accounts : List (String × AccountStep))
    (fileInit : Option String) (jiu : List FamStep)
    (baozi : List (Option String × FamStep)) (cfg : NotifyConfig) (w : ChannelWorld)
    (hload : (mainRun accounts fileInit jiu baozi cfg w).loadedHash = none)
    (hbal : (mainRun accounts fileInit jiu baozi cfg w).balances ≠ []) :
    (mainRun accounts fileInit jiu baozi cfg w).needNotify = true ∧
      (mainRun accounts fileInit jiu baozi cfg w).pushInvoked = true := by
  have hb : (loopStateOf accounts).balances ≠ [] := hbal
  have hcur : currentHashOf accounts =
      some (generate_balance_hash (loopStateOf accounts).balances) := by
    unfold currentHashOf
    cases hbb : (loopStateOf accounts).balances with
    | nil => exact absurd hbb hb
    | cons x xs => rfl
  have hch : changedOf accounts fileInit = true := by
    unfold changedOf
    rw [hcur, show lastHashOf fileInit = none from hload]
    rfl
  have hn : needNotifyOf accounts fileInit jiu baozi = true := by
    unfold needNotifyOf
    rw [hch]
    simp
  refine ⟨hn, ?_⟩
  have hcoll : (loopStateOf accounts).balances = collectBalances accounts 0 := by
    unfold loopStateOf
    rw [runLoop_balances]
    simp [initLoopState]
  have hpass : balancePass accounts 0 (loopStateOf accounts).balances
      (loopStateOf accounts).content ≠ [] := by
    obtain ⟨j, hj, hm⟩ := collectBalances_key_exists accounts 0 (hcoll ▸ hb)
    have hlook : (alookup (loopStateOf accounts).balances (acctKey (0 + j))).isSome = true := by
      rw [hcoll]
      exact (alookup_isSome_iff_mem _ _).mpr hm
    exact balancePass_ne_nil_of_balance accounts 0 _ _ j hj hlook
  have hcm : contentMainOf accounts fileInit = balancePass accounts 0
      (loopStateOf accounts).balances (loopStateOf accounts).content := by
    unfold contentMainOf
    rw [hch]
    rfl
  show pushInvokedOf accounts fileInit jiu baozi = true
  unfold pushInvokedOf
  rw [hn, hcm]
  cases hp : balancePass accounts 0 (loopStateOf accounts).balances
      (loopStateOf accounts).content with
  | nil => exact absurd hp hpass
  | cons a l => simp

set_option maxRecDepth 16384 in
/-- C2 witness: the amended claim at a concrete first run with one
failed account that still yielded a balance. -/
theorem c2_witness :
    (mainRun [("Account 1", AccountStep.res false (some (.ok ⟨200, 100⟩)))]
      none [] [] exampleConfig exampleWorld).needNotify = true ∧
    (mainRun [("Account 1", AccountStep.res false (some (.ok ⟨200, 100⟩)))]
      none [] [] exampleConfig exampleWorld).pushInvoked = true :=
  c2_amended_first_run_notifies
    [("Account 1", AccountStep.res false (some (.ok ⟨200, 100⟩)))]
    none [] [] exampleConfig exampleWorld rfl (by decide)

set_option maxRecDepth 16384 in
/-- C9 witness: a run with one known balance writes the file exactly
once with the computed fingerprint. -/
theorem c9_witness :
    (mainRun [("Account 1", AccountStep.res true (some (.ok ⟨200, 100⟩)))] (some "old") [] []
      exampleConfig exampleWorld).writeCount = 1 ∧
    (mainRun [("Account 1", AccountStep.res true (some (.ok ⟨200, 100⟩)))] (some "old") [] []
      exampleConfig exampleWorld).fileFinal =
      some (generate_balance_hash
        (mainRun [("Account 1", AccountStep.res true (some (.ok ⟨200, 100⟩)))] (some "old") [] []
          exampleConfig exampleWorld).balances) :=
  (c9_fingerprint_persistence [("Account 1", AccountStep.res true (some (.ok ⟨200, 100⟩)))]
    (some "old") [] [] exampleConfig exampleWorld).2.2 (by decide)
